import Mathlib

/-!
Verification development for the LiveKit voice deployment of this repository:
the agent-side context ledger and control channel (deploy/livekit/agent.py)
and the portal-side settings codec and room/dispatch reconciler
(deploy/livekit/portal.py).

Python strings are modelled as Lean strings (sequences of code points);
Python ints as Lean Int/Nat; JSON numbers as rationals.  External library
calls (json.loads, float()/int() string parsing) are modelled at their
interface boundary as explicit function parameters returning Option, since
a Python exception surfaces as none.
-/

/-! ## Python string primitives -/

/-- Whitespace characters stripped by str.strip() (ASCII subset, which covers
every string these components strip). -/
def isPySpace (c : Char) : Bool :=
  c == ' ' || c == '\t' || c == '\n' || c == '\r' || c == Char.ofNat 11 || c == Char.ofNat 12

/-- Model of Python str.strip() on the underlying character list. -/
def pyStripList (l : List Char) : List Char :=
  ((l.dropWhile isPySpace).reverse.dropWhile isPySpace).reverse

/-- Model of Python str.strip(). -/
def pyStrip (s : String) : String := String.mk (pyStripList s.data)

/-- Model of Python str.lower() (ASCII; every compared token is ASCII). -/
def pyLower (s : String) : String := String.mk (s.data.map Char.toLower)

/-- Does the second list start with the first list? -/
def listStarts : List Char → List Char → Bool
  | [], _ => true
  | _ :: _, [] => false
  | a :: as, b :: bs => a == b && listStarts as bs

/-- Model of Python str.startswith. -/
def pyStartswith (s pre : String) : Bool := listStarts pre.data s.data

/-- Does the second list contain the first as a contiguous run? -/
def listHas (needle : List Char) : List Char → Bool
  | [] => needle.isEmpty
  | c :: rest => listStarts needle (c :: rest) || listHas needle rest

/-- Model of the Python expression needle in s. -/
def pyContains (needle s : String) : Bool := listHas needle.data s.data

/-! ## JSON values

JVal models the values produced by json.loads and fed to json.dumps:
null, booleans, numbers (rationals: exact for every int and float the
portal handles, and only compared or re-serialized, never computed with),
strings, arrays and objects (association lists, as Python dicts). -/

inductive JVal where
  | null
  | bool (b : Bool)
  | num (q : ℚ)
  | str (s : String)
  | arr (xs : List JVal)
  | obj (fields : List (String × JVal))

/-- Python None-or-string values placed into published payload dicts. -/
def jOfOptStr : Option String → JVal
  | none => JVal.null
  | some s => JVal.str s

/-! ## Context Ledger (agent.py, apply_context / clear_context)

A chat-context item as the ledger sees it: livekit message items carry a
content list of parts (strings or non-string parts such as images), and the
code also defends against a legacy plain-string content shape.  The
owuiContext flag models extra.get("owui_livekit_context") is True; item ids
are modelled by the numeric counter nextId. -/

inductive CPart where
  | str (s : String)
  | other
deriving DecidableEq

inductive MsgContent where
  | parts (ps : List CPart)
  | text (s : String)
deriving DecidableEq

structure ChatItem where
  id : Nat
  itemType : String
  content : MsgContent
  owuiContext : Bool
deriving DecidableEq

structure LedgerState where
  items : List ChatItem
  nextId : Nat
deriving DecidableEq

/-- Mirrors is_context_item: type == "message" and the extra flag is True. -/
def isContextItem (it : ChatItem) : Bool := it.itemType == "message" && it.owuiContext

/-- Characters contributed by one content part (only str parts count). -/
def partChars : CPart → Nat
  | .str s => s.data.length
  | .other => 0

/-- Characters of one item content, mirroring the two isinstance branches of
context_total_chars. -/
def contentChars : MsgContent → Nat
  | .parts ps => (ps.map partChars).sum
  | .text s => s.data.length

def itemContextChars (it : ChatItem) : Nat :=
  if isContextItem it then contentChars it.content else 0

/-- Mirrors context_total_chars. -/
def totalContextChars (items : List ChatItem) : Nat := (items.map itemContextChars).sum

/-- The tagged context items of a chat context. -/
def contextItems (items : List ChatItem) : List ChatItem := items.filter isContextItem

/-- The fixed explanatory prefix wrapped around freshly inserted context. -/
def contextWrapText : String := "Reference context (provided by user):\n\n"

/-- Mirrors the f-string wrapping of fresh context text. -/
def wrapContext (t : String) : String := String.mk (contextWrapText.data ++ t.data)

/-- Walks a reversed item list, appending one part to the first context item
found (hence the last one in the original order), mirroring
find_last_context_message plus the in-place content.append.  Returns none
when no context item exists or the last one has the legacy plain-string
content shape (the code then falls back to inserting a fresh message). -/
def appendFirstCtxRev (t : String) : List ChatItem → Option (List ChatItem × Nat)
  | [] => none
  | it :: rest =>
    if isContextItem it then
      match it.content with
      | .parts ps => some ({ it with content := .parts (ps ++ [CPart.str t]) } :: rest, it.id)
      | .text _ => none
    else
      match appendFirstCtxRev t rest with
      | some (rest2, i) => some (it :: rest2, i)
      | none => none

def appendLastCtx (t : String) (items : List ChatItem) : Option (List ChatItem × Nat) :=
  match appendFirstCtxRev t items.reverse with
  | some (l, i) => some (l.reverse, i)
  | none => none

/-- One outbound telemetry payload: the event name and the data dict, with
exactly the keys the Python dict literal carries. -/
structure Emitted where
  event : String
  data : List (String × JVal)

/-- Mode normalization: anything other than replace or append falls back to
replace. -/
def normMode (mode0 : String) : String :=
  if mode0 == "replace" || mode0 == "append" then mode0 else "replace"

/-- In replace mode every existing tagged item is dropped first. -/
def replaceFiltered (mode : String) (items : List ChatItem) : List ChatItem :=
  if mode == "replace" then items.filter (fun it => !(isContextItem it)) else items

/-- The truncation step: when a positive budget leaves less room than the
incoming text, the text is cut to the remaining budget and flagged. -/
def truncatePair (maxChars : Int) (current : Nat) (textS : String) : String × Bool :=
  let remaining : Int := maxChars - (current : Int)
  if 0 < maxChars ∧ remaining < (textS.data.length : Int) then
    (String.mk (textS.data.take remaining.toNat), true)
  else (textS, false)

/-- Mirrors apply_context (agent.py).  The library calls that the Python
wraps in try/except (chat_ctx.copy, update_chat_ctx, add_message) are
modelled as always succeeding; their failure paths are external fault
injection.  Returns the agent state after the mutation together with the
single outcome notification the call schedules. -/
def applyContext (maxChars : Int) (st : LedgerState) (text0 mode0 : String)
    (requestId : Option String) : LedgerState × Emitted :=
  let textS := pyStrip text0
  let mode := normMode mode0
  let items1 := replaceFiltered mode st.items
  if textS.data.isEmpty then
    ({ st with items := items1 },
     { event := "context_cleared",
       data := [("mode", JVal.str mode), ("request_id", jOfOptStr requestId)] })
  else
    let current := totalContextChars items1
    if 0 < maxChars ∧ maxChars - (current : Int) ≤ 0 then
      (st,
       { event := "context_error",
         data := [("message", JVal.str "Context is full (max chars reached)"),
                  ("max_chars", JVal.num maxChars),
                  ("chars", JVal.num current),
                  ("request_id", jOfOptStr requestId)] })
    else
      let tpair := truncatePair maxChars current textS
      let text2 := tpair.1
      let truncated := tpair.2
      let appendRes := if mode == "append" then appendLastCtx text2 items1 else none
      match appendRes with
      | some (items2, msgId) =>
        ({ items := items2, nextId := st.nextId },
         { event := "context_set",
           data := [("mode", JVal.str mode),
                    ("chars", JVal.num text2.data.length),
                    ("id", JVal.num msgId),
                    ("appended", JVal.bool true),
                    ("truncated", JVal.bool truncated),
                    ("max_chars", JVal.num maxChars),
                    ("total_chars", JVal.num (totalContextChars items2)),
                    ("request_id", jOfOptStr requestId)] })
      | none =>
        let newItem : ChatItem :=
          { id := st.nextId, itemType := "message",
            content := .parts [CPart.str (wrapContext text2)], owuiContext := true }
        let items2 := items1 ++ [newItem]
        ({ items := items2, nextId := st.nextId + 1 },
         { event := "context_set",
           data := [("mode", JVal.str mode),
                    ("chars", JVal.num text2.data.length),
                    ("id", JVal.num st.nextId),
                    ("appended", JVal.bool false),
                    ("truncated", JVal.bool truncated),
                    ("max_chars", JVal.num maxChars),
                    ("total_chars", JVal.num (totalContextChars items2)),
                    ("request_id", jOfOptStr requestId)] })

/-- Mirrors clear_context (agent.py): unconditionally removes every tagged
item and publishes one context_cleared payload whose data dict carries only
the request id. -/
def clearContext (st : LedgerState) (requestId : Option String) : LedgerState × Emitted :=
  ({ st with items := st.items.filter (fun it => !(isContextItem it)) },
   { event := "context_cleared", data := [("request_id", jOfOptStr requestId)] })

inductive LedgerOp where
  | set (text mode : String) (requestId : Option String)
  | clear (requestId : Option String)

def ledgerStep (maxChars : Int) (st : LedgerState) : LedgerOp → LedgerState
  | .set t m rid => (applyContext maxChars st t m rid).1
  | .clear rid => (clearContext st rid).1

def runLedgerOps (maxChars : Int) (ops : List LedgerOp) (st : LedgerState) : LedgerState :=
  ops.foldl (ledgerStep maxChars) st

/-- An agent chat context holding no tagged items yet. -/
def initLedger : LedgerState := { items := [], nextId := 0 }

/-! ## Voice Settings Codec (portal.py)

encodeMeta models the two identical json.dumps call sites:
json.dumps(obj with owui_voice key, separators=(",", ":"), sort_keys=True)
when the settings dict is non-empty, and the empty string otherwise.
sort_keys sorts every dict in the tree; the portal serializes exactly one
shape — a singleton outer dict whose value is a flat settings dict with
scalar values — so sorting the settings keys before dumping captures
sort_keys exactly for every value this code serializes. -/

/-- Lowercase hex digit, as Python uses in its backslash-u escapes. -/
def hexDigit (n : Nat) : Char :=
  if n < 10 then Char.ofNat (48 + n) else Char.ofNat (87 + n)

def hex4 (n : Nat) : List Char :=
  [hexDigit (n / 4096 % 16), hexDigit (n / 256 % 16), hexDigit (n / 16 % 16), hexDigit (n % 16)]

/-- JSON escape of one character under ensure_ascii=True (the portal uses the
json.dumps default), including surrogate pairs for astral code points. -/
def escapeChar (c : Char) : List Char :=
  if c == '"' then ['\\', '"']
  else if c == '\\' then ['\\', '\\']
  else if c == '\n' then ['\\', 'n']
  else if c == '\t' then ['\\', 't']
  else if c == '\r' then ['\\', 'r']
  else if c == Char.ofNat 8 then ['\\', 'b']
  else if c == Char.ofNat 12 then ['\\', 'f']
  else if c.toNat < 32 || c.toNat > 126 then
    if c.toNat ≤ 65535 then '\\' :: 'u' :: hex4 c.toNat
    else
      '\\' :: 'u' :: hex4 (55296 + (c.toNat - 65536) / 1024) ++
        '\\' :: 'u' :: hex4 (56320 + (c.toNat - 65536) % 1024)
  else [c]

def escapeList : List Char → List Char
  | [] => []
  | c :: cs => escapeChar c ++ escapeList cs

/-- A JSON string literal with quotes and escapes. -/
def jsonQuote (s : String) : List Char := '"' :: escapeList s.data ++ ['"']

/-- Rendering of a JSON number.  Python renders ints exactly and floats via
repr (shortest round-trip decimal); the exact digit string of a non-integer
is irrelevant to every property proved here (only that the rendering is a
deterministic function of the value matters, which is all the reconciler
equality check and the round-trip rely on), so non-integer rationals use an
explicit num/den rendering. -/
def dumpNum (q : ℚ) : List Char :=
  if q.den == 1 then (toString q.num).data
  else (toString q.num).data ++ '/' :: (toString q.den).data

mutual

/-- Model of json.dumps with separators=(",", ":") (dict keys taken in the
order given; see encodeMeta for the sort_keys handling). -/
def dumpJVal : JVal → List Char
  | .null => "null".data
  | .bool b => if b then "true".data else "false".data
  | .num q => dumpNum q
  | .str s => jsonQuote s
  | .arr xs => Char.ofNat 91 :: dumpArr xs ++ [Char.ofNat 93]
  | .obj fs => Char.ofNat 123 :: dumpFields fs ++ [Char.ofNat 125]

def dumpArr : List JVal → List Char
  | [] => []
  | [x] => dumpJVal x
  | x :: y :: rest => dumpJVal x ++ ',' :: dumpArr (y :: rest)

def dumpFields : List (String × JVal) → List Char
  | [] => []
  | [(k, v)] => jsonQuote k ++ ':' :: dumpJVal v
  | (k, v) :: p :: rest => jsonQuote k ++ ':' :: dumpJVal v ++ ',' :: dumpFields (p :: rest)

end

/-- Python string comparison: code-point lexicographic order. -/
def charListLe : List Char → List Char → Bool
  | [], _ => true
  | _ :: _, [] => false
  | a :: as, b :: bs => if a < b then true else if b < a then false else charListLe as bs

def keyLe (a b : String) : Bool := charListLe a.data b.data

def insertField (p : String × JVal) : List (String × JVal) → List (String × JVal)
  | [] => [p]
  | q :: rest => if keyLe p.1 q.1 then p :: q :: rest else q :: insertField p rest

/-- Stable insertion sort of dict fields by key, as sorted does for
json.dumps sort_keys=True. -/
def sortFields : List (String × JVal) → List (String × JVal)
  | [] => []
  | p :: rest => insertField p (sortFields rest)

/-- Mirrors the metadata expression of portal.py (token and apply): the
serialized form of the owui_voice wrapper when the settings dict is
non-empty, and the empty string otherwise. -/
def encodeMeta (vs : List (String × JVal)) : String :=
  if vs.isEmpty then ""
  else String.mk (dumpJVal (.obj [("owui_voice", .obj (sortFields vs))]))

/-! ## Room metadata parsing (agent.py, _parse_room_voice_settings)

json.loads is the Python stdlib, external to this repository; it is passed
in as a total function returning Option JVal (a parse exception surfaces as
none), which is the whole interface the source consumes under its
try/except. -/

/-- Mirrors _parse_room_voice_settings. -/
def parseRoomVoiceSettings (parse : String → Option JVal) (md : Option String) :
    List (String × JVal) :=
  let raw := pyStrip (md.getD "")
  if raw.data.isEmpty then []
  else
    match parse raw with
    | none => []
    | some (.obj fields) =>
      match fields.lookup "owui_voice" with
      | some (.obj s) => s
      | _ => []
    | some _ => []

/-- The settings field names _build_voice_settings can emit. -/
def voiceSettingKeys : List String :=
  ["llm_model", "turn_detection", "allow_interruptions", "min_endpointing_delay",
   "max_endpointing_delay", "min_interruption_duration", "min_interruption_words", "tts_voice"]

def isScalarJ : JVal → Bool
  | .arr _ => false
  | .obj _ => false
  | _ => true

/-- A settings dict is valid when it could come out of _build_voice_settings:
known keys, no duplicates, scalar values. -/
def ValidVoiceSettings (s : List (String × JVal)) : Prop :=
  (∀ p ∈ s, p.1 ∈ voiceSettingKeys ∧ isScalarJ p.2 = true) ∧ (s.map Prod.fst).Nodup

/-! ## Settings validation (portal.py, _build_voice_settings) -/

structure HttpError where
  status : Nat
  detail : String
deriving DecidableEq

structure BuildArgs where
  llmModel : Option String
  turnDetection : Option String
  allowInterruptions : Option Bool
  minEndpointingDelay : Option ℚ
  maxEndpointingDelay : Option ℚ
  minInterruptionDuration : Option ℚ
  minInterruptionWords : Option Int
  ttsVoice : Option String
deriving DecidableEq

/-- The llm_model normalization branch of _build_voice_settings. -/
def llmField (x : Option String) : Except HttpError (List (String × JVal)) :=
  match x with
  | none => .ok []
  | some m =>
    let n := pyStrip m
    if n.data.isEmpty then .ok []
    else
      let lowered := pyLower n
      if lowered == "4.6" || lowered == "glm4.6" || lowered == "glm-4.6" || lowered == "zai-glm-4.6" then
        .ok [("llm_model", JVal.str "zai-glm-4.6")]
      else if lowered == "4.7" || lowered == "glm4.7" || lowered == "glm-4.7" || lowered == "zai-glm-4.7" then
        .ok [("llm_model", JVal.str "zai-glm-4.7")]
      else .error { status := 400, detail := "Invalid llm_model (allowed: glm-4.6, glm-4.7)" }

/-- The turn_detection branch; note if turn_detection is falsy (None or the
empty string) the branch is skipped entirely. -/
def turnField (x : Option String) : Except HttpError (List (String × JVal)) :=
  match x with
  | none => .ok []
  | some td =>
    if td.data.isEmpty then .ok []
    else
      let normalized := pyLower (pyStrip td)
      if normalized == "ml" || normalized == "multilingual" then
        .ok [("turn_detection", JVal.str "ml")]
      else if normalized == "stt" then .ok [("turn_detection", JVal.str "stt")]
      else .error { status := 400, detail := "Invalid turn_detection (allowed: stt, ml)" }

/-- The tts_voice branch. -/
def ttsField (x : Option String) : Except HttpError (List (String × JVal)) :=
  match x with
  | none => .ok []
  | some v =>
    let n := pyStrip v
    if n.data.isEmpty then .ok []
    else if 256 < n.data.length then .error { status := 400, detail := "tts_voice is too long" }
    else .ok [("tts_voice", JVal.str n)]

def optNumField (k : String) (x : Option ℚ) : List (String × JVal) :=
  match x with
  | none => []
  | some q => [(k, JVal.num q)]

def optIntField (k : String) (x : Option Int) : List (String × JVal) :=
  match x with
  | none => []
  | some n => [(k, JVal.num n)]

def optBoolField (k : String) (x : Option Bool) : List (String × JVal) :=
  match x with
  | none => []
  | some b => [(k, JVal.bool b)]

/-- Mirrors _build_voice_settings, fields in source insertion order, with the
final cross-field endpointing check on the raw arguments. -/
def buildVoiceSettings (a : BuildArgs) : Except HttpError (List (String × JVal)) := do
  let f1 ← llmField a.llmModel
  let f2 ← turnField a.turnDetection
  let f8 ← ttsField a.ttsVoice
  let violated :=
    match a.minEndpointingDelay, a.maxEndpointingDelay with
    | some x, some y => decide (y < x)
    | _, _ => false
  if violated then
    .error { status := 400,
             detail := "Invalid endpointing delays (min_endpointing_delay > max_endpointing_delay)" }
  else
    .ok (f1 ++ f2 ++ optBoolField "allow_interruptions" a.allowInterruptions ++
      optNumField "min_endpointing_delay" a.minEndpointingDelay ++
      optNumField "max_endpointing_delay" a.maxEndpointingDelay ++
      optNumField "min_interruption_duration" a.minInterruptionDuration ++
      optIntField "min_interruption_words" a.minInterruptionWords ++ f8)

/-! ## Live-session seeding (agent.py, entrypoint lines 129-166)

The coercion helpers mirror _coerce_bool/_coerce_float/_coerce_int.  A
missing dict key arrives as JVal.null (Python None).  Python float()/int()
parsing of strings is the stdlib, passed in as explicit parameters; JSON
numbers are rationals, which identifies a JSON int with the equal float
exactly as both coercions do. -/

def coerceBool : JVal → Option Bool
  | .bool b => some b
  | .str s =>
    let normalized := pyLower (pyStrip s)
    if normalized == "1" || normalized == "true" || normalized == "yes" || normalized == "y" || normalized == "on" then
      some true
    else if normalized == "0" || normalized == "false" || normalized == "no" || normalized == "n" || normalized == "off" then
      some false
    else none
  | _ => none

def coerceFloat (pyFloat : String → Option ℚ) : JVal → Option ℚ
  | .num q => some q
  | .str s => pyFloat (pyStrip s)
  | _ => none

def coerceInt (pyInt : String → Option Int) : JVal → Option Int
  | .num q => if q.den == 1 then some q.num else none
  | .str s => pyInt (pyStrip s)
  | _ => none

/-- Python dict .get with default None. -/
def settingsGet (s : List (String × JVal)) (k : String) : JVal := (s.lookup k).getD JVal.null

/-- The session keyword arguments seeded from room metadata (turn_detection,
which wraps an opaque provider object, and tts_voice, which goes to the TTS
constructor instead, are handled separately in the source and carry no
cross-field constraint). -/
structure SessionKwargs where
  allowInterruptions : Option Bool
  minEndpointingDelay : Option ℚ
  maxEndpointingDelay : Option ℚ
  minInterruptionDuration : Option ℚ
  minInterruptionWords : Option Int
deriving DecidableEq

/-- Mirrors the session_kwargs construction of entrypoint: range-gated
inclusion of each coerced field, then the defensive swap when both
endpointing delays are present and inverted. -/
def seedSessionKwargs (pyFloat : String → Option ℚ) (pyInt : String → Option Int)
    (settings : List (String × JVal)) : SessionKwargs :=
  let ai := coerceBool (settingsGet settings "allow_interruptions")
  let minEd0 := coerceFloat pyFloat (settingsGet settings "min_endpointing_delay")
  let maxEd0 := coerceFloat pyFloat (settingsGet settings "max_endpointing_delay")
  let minDur0 := coerceFloat pyFloat (settingsGet settings "min_interruption_duration")
  let words0 := coerceInt pyInt (settingsGet settings "min_interruption_words")
  let minEd := match minEd0 with
    | some q => if 0 ≤ q ∧ q ≤ 10 then some q else none
    | none => none
  let maxEd := match maxEd0 with
    | some q => if 0 ≤ q ∧ q ≤ 10 then some q else none
    | none => none
  let minDur := match minDur0 with
    | some q => if 0 ≤ q ∧ q ≤ 10 then some q else none
    | none => none
  let words := match words0 with
    | some n => if 0 ≤ n ∧ n ≤ 50 then some n else none
    | none => none
  let swapped := match minEd, maxEd with
    | some x, some y => if y < x then (some y, some x) else (some x, some y)
    | x, y => (x, y)
  { allowInterruptions := ai
    minEndpointingDelay := swapped.1
    maxEndpointingDelay := swapped.2
    minInterruptionDuration := minDur
    minInterruptionWords := words }

/-! ## Room/Dispatch Reconciler (portal.py, token lines 273-341 and apply
lines 408-459)

The substrate is modelled as the observations the reconciler makes of it:
whether the room exists and, if so, its participants and the active agent
dispatches with the room metadata each dispatch job last observed.  The
effects are the calls the reconciler issues: metadata update, dispatch
deletions, dispatch creation. -/

structure DispatchJob where
  roomMetadata : String
deriving DecidableEq

structure AgentDispatch where
  id : String
  agentName : String
  jobs : List DispatchJob
deriving DecidableEq

structure RoomParticipant where
  identity : String
deriving DecidableEq

structure RoomInfo where
  metadata : String
  participants : List RoomParticipant
  dispatches : List AgentDispatch
deriving DecidableEq

structure TokenReconcileEffects where
  metadataUpdated : Bool
  deletedDispatchIds : List String
  createdDispatch : Bool
  skippedOccupied : Bool
deriving DecidableEq

/-- The dispatches of this agent in the room. -/
def agentDispatchesOf (agentName : String) (r : RoomInfo) : List AgentDispatch :=
  r.dispatches.filter (fun d => d.agentName == agentName)

/-- Mirrors the restart_needed computation of the token path: true when no
agent dispatch exists or some dispatch job last observed metadata different
from the metadata just written. -/
def dispatchStale (metadata : String) (ds : List AgentDispatch) : Bool :=
  ds.isEmpty || ds.any (fun d => d.jobs.any (fun j => !(j.roomMetadata == metadata)))

/-- Mirrors the reconciliation block of the token path against an already
existing room (room none models the room-absent case, where the settings
travel in the room creation configuration and no substrate call is made). -/
def tokenReconcile (agentName : String) (room : Option RoomInfo) (metadata : String) :
    TokenReconcileEffects :=
  match room with
  | none => { metadataUpdated := false, deletedDispatchIds := [], createdDispatch := false, skippedOccupied := false }
  | some r =>
    let ds := agentDispatchesOf agentName r
    if dispatchStale metadata ds then
      if r.participants.any (fun p => !(pyStartswith p.identity "agent-")) then
        { metadataUpdated := true, deletedDispatchIds := [], createdDispatch := false, skippedOccupied := true }
      else
        { metadataUpdated := true, deletedDispatchIds := ds.map (·.id), createdDispatch := true, skippedOccupied := false }
    else
      { metadataUpdated := true, deletedDispatchIds := [], createdDispatch := false, skippedOccupied := false }

structure ApplyResult where
  status : Nat
  metadataUpdated : Bool
  metadataWritten : String
  deletedDispatchIds : List String
  createdDispatch : Bool
deriving DecidableEq

/-- Mirrors the apply endpoint reconciliation after authorization and
settings validation: 404 when the room is absent; metadata written; 409 when
a non-agent participant other than the caller is present and force is not
set; otherwise every dispatch of this agent is deleted and a fresh one
created, with no staleness comparison on this path. -/
def applyReconcile (agentName : String) (room : Option RoomInfo) (metadata : String)
    (userId : String) (force : Bool) : ApplyResult :=
  match room with
  | none =>
    { status := 404, metadataUpdated := false, metadataWritten := "",
      deletedDispatchIds := [], createdDispatch := false }
  | some r =>
    let otherHumans := r.participants.filter
      (fun p => !(pyStartswith p.identity "agent-") && !(p.identity == "owui:" ++ userId))
    if !otherHumans.isEmpty && !force then
      { status := 409, metadataUpdated := true, metadataWritten := metadata,
        deletedDispatchIds := [], createdDispatch := false }
    else
      { status := 200, metadataUpdated := true, metadataWritten := metadata,
        deletedDispatchIds := (r.dispatches.filter (fun d => d.agentName == agentName)).map (·.id),
        createdDispatch := true }

/-! ## Session Control Channel (agent.py, on_data_received) -/

structure DataPacket where
  senderIdentity : String
  topic : String
  payloadText : String
deriving DecidableEq

/-- The disposition of one inbound packet.  publishedInvalidJson and
publishedUnknownOp are the two context_error telemetry payloads this handler
schedules; dispatchSet and dispatchClear are the tasks created against the
Context Ledger. -/
inductive RxAction where
  | ignored
  | warnedWrongTopic
  | droppedIdentity
  | publishedInvalidJson
  | publishedUnknownOp (op : String) (requestId : Option String)
  | dispatchSet (text mode : String) (requestId : Option String)
  | dispatchClear (requestId : Option String)
deriving DecidableEq

/-- Python truthiness of a JSON value. -/
def pyTruthy : JVal → Bool
  | .null => false
  | .bool b => b
  | .num q => !(q == 0)
  | .str s => !s.data.isEmpty
  | .arr xs => !xs.isEmpty
  | .obj fs => !fs.isEmpty

/-- Python str() of a JSON value.  Scalars are rendered as Python renders
them; the container reprs are abbreviated (deterministic, and never equal to
a control op name, which is all the handler inspects them for). -/
def pyStr : JVal → String
  | .str s => s
  | .bool b => if b then "True" else "False"
  | .null => "None"
  | .num q => String.mk (dumpNum q)
  | .arr _ => "[...]"
  | .obj _ => String.mk (Char.ofNat 123 :: "...".data ++ [Char.ofNat 125])

/-- Models the Python idiom payload.get(k) or default. -/
def jTruthyGetD (fields : List (String × JVal)) (k : String) (dflt : JVal) : JVal :=
  match fields.lookup k with
  | some v => if pyTruthy v then v else dflt
  | none => dflt

/-- Mirrors on_data_received: the packet text arrives already decoded
(bytes.decode with errors="replace" is total), and json.loads is the
explicit parse parameter. -/
def onDataReceived (parse : String → Option JVal) (controlTopic : String)
    (pkt : DataPacket) : RxAction :=
  if controlTopic.data.isEmpty then .ignored
  else
    let raw := pyStrip pkt.payloadText
    if raw.data.isEmpty then .ignored
    else if !(pkt.topic == controlTopic) then
      if pyContains "owui.voice.control" raw then .warnedWrongTopic else .ignored
    else if !pkt.senderIdentity.data.isEmpty && !(pyStartswith pkt.senderIdentity "owui:") then
      .droppedIdentity
    else
      match parse raw with
      | none => .publishedInvalidJson
      | some (.obj fields) =>
        let typeOk := match fields.lookup "type" with
          | some (.str t) => t == "owui.voice.control"
          | _ => false
        if !typeOk then .ignored
        else
          let op := pyLower (pyStrip (pyStr (jTruthyGetD fields "op" (JVal.str ""))))
          let ridS := pyStrip (pyStr (jTruthyGetD fields "request_id" (JVal.str "")))
          let requestId := if ridS.data.isEmpty then none else some ridS
          if op == "context_set" then
            let text := pyStr (jTruthyGetD fields "text" (JVal.str ""))
            let mode := pyLower (pyStrip (pyStr (jTruthyGetD fields "mode" (JVal.str "replace"))))
            .dispatchSet text mode requestId
          else if op == "context_clear" then .dispatchClear requestId
          else .publishedUnknownOp op requestId
      | some _ => .ignored

/-! ## Concrete inputs used by counterexamples and witnesses -/

/-- A 50000-character text (exactly the default budget). -/
def bigX : String := String.mk (List.replicate 50000 'x')

/-- An existing room whose single agent dispatch job already observed
metadata "m": not stale with respect to writing "m" again. -/
def room0 : RoomInfo :=
  { metadata := "m", participants := [],
    dispatches := [{ id := "d1", agentName := "owui-voice", jobs := [{ roomMetadata := "m" }] }] }

def c4payloadFields : List (String × JVal) :=
  [("type", JVal.str "owui.voice.control"), ("op", JVal.str "context_clear")]

def c4raw : String := "\x7b\"type\":\"owui.voice.control\",\"op\":\"context_clear\"\x7d"

/-- A json.loads model defined on the single payload the counterexample
sends. -/
def parseForC4 : String → Option JVal :=
  fun s => if s == c4raw then some (.obj c4payloadFields) else none

/-- A well-formed control payload arriving with an empty sender identity. -/
def pktAnon : DataPacket :=
  { senderIdentity := "", topic := "owui.voice.control", payloadText := c4raw }

/-- The same payload from a properly namespaced sender. -/
def pktOwner : DataPacket :=
  { senderIdentity := "owui:u", topic := "owui.voice.control", payloadText := c4raw }

/-- The same payload from a non-namespaced, non-empty sender identity. -/
def pktIntruder : DataPacket :=
  { senderIdentity := "intruder", topic := "owui.voice.control", payloadText := c4raw }

def c5s : List (String × JVal) := [("turn_detection", JVal.str "ml")]

/-- A json.loads model satisfying the stdlib loads/dumps contract at the one
string the round-trip witness serializes. -/
def parseForC5 : String → Option JVal :=
  fun t => if t == encodeMeta c5s then some (.obj [("owui_voice", .obj c5s)]) else none

/-- An existing room occupied by a participant who is neither an agent nor
the caller "u". -/
def roomGuest : RoomInfo :=
  { metadata := "m", participants := [{ identity := "guest" }],
    dispatches := [{ id := "d1", agentName := "owui-voice", jobs := [] }] }

/-- An agent chat context whose tagged content already fills a budget of 1. -/
def fullSt : LedgerState :=
  { items := [{ id := 0, itemType := "message", content := .parts [CPart.str "xx"],
                owuiContext := true }],
    nextId := 1 }

/-- The ledger after setting the 50000-character text on an empty ledger
under the default budget. -/
def c2St1 : LedgerState := runLedgerOps 50000 [.set bigX "replace" none] initLedger

/-- The ledger after the two-call example of the spec under the default
budget. -/
def c1Run : LedgerState :=
  (applyContext 50000 (applyContext 50000 initLedger "hello" "replace" none).1
    " world" "append" none).1

/-! ## Bridging lemmas -/

theorem str_data_empty_iff (s : String) : s.data.isEmpty = true ↔ s = "" := by
  cases s with
  | mk l =>
    cases l with
    | nil => exact ⟨fun _ => rfl, fun _ => rfl⟩
    | cons a as =>
      simp only [List.isEmpty_cons]
      constructor
      · intro h; cases h
      · intro h
        have : (String.mk (a :: as)).data = ("" : String).data := by rw [h]
        cases this

theorem dropWhile_eq_self_of (p : Char → Bool) (l : List Char)
    (h : ∀ c ∈ l, p c = false) : l.dropWhile p = l := by
  cases l with
  | nil => rfl
  | cons a as => simp [List.dropWhile_cons, h a (by simp)]

theorem pyStrip_eq_self {s : String} (h : ∀ c ∈ s.data, isPySpace c = false) :
    pyStrip s = s := by
  cases s with
  | mk l =>
    show String.mk (pyStripList l) = String.mk l
    unfold pyStripList
    rw [dropWhile_eq_self_of _ _ h, dropWhile_eq_self_of, List.reverse_reverse]
    intro c hc
    exact h c (by simpa using hc)

/-! ## C6: settings-validation boundary rejects inverted endpointing delays -/

theorem llmField_error_status {x : Option String} {e : HttpError}
    (h : llmField x = .error e) : e.status = 400 := by
  unfold llmField at h
  cases x with
  | none => cases h
  | some m =>
    by_cases h1 : (pyStrip m).data.isEmpty <;> simp [h1] at h
    split at h
    · cases h
    · split at h
      · cases h
      · cases h; rfl

theorem turnField_error_status {x : Option String} {e : HttpError}
    (h : turnField x = .error e) : e.status = 400 := by
  unfold turnField at h
  cases x with
  | none => cases h
  | some td =>
    by_cases h1 : td.data.isEmpty <;> simp [h1] at h
    split at h
    · cases h
    · split at h
      · cases h
      · cases h; rfl

theorem ttsField_error_status {x : Option String} {e : HttpError}
    (h : ttsField x = .error e) : e.status = 400 := by
  unfold ttsField at h
  cases x with
  | none => cases h
  | some v =>
    by_cases h1 : (pyStrip v).data.isEmpty <;> simp [h1] at h
    split at h
    · cases h; rfl
    · cases h

/-- C6: at the settings-validation boundary shared by token and apply,
whenever both endpointing delays are present and min exceeds max, the
request is rejected with a 400 validation error (never returned corrected or
swapped). -/
theorem endpointing_validation_rejects (a : BuildArgs) (x y : ℚ)
    (hmin : a.minEndpointingDelay = some x) (hmax : a.maxEndpointingDelay = some y)
    (hgt : y < x) :
    ∃ e, buildVoiceSettings a = .error e ∧ e.status = 400 := by
  have hviol : (match a.minEndpointingDelay, a.maxEndpointingDelay with
      | some x, some y => decide (y < x)
      | _, _ => false) = true := by
    rw [hmin, hmax]; simpa using hgt
  unfold buildVoiceSettings
  cases h1 : llmField a.llmModel with
  | error e => exact ⟨e, by simp [h1, Bind.bind, Except.bind], llmField_error_status h1⟩
  | ok f1 =>
    cases h2 : turnField a.turnDetection with
    | error e => exact ⟨e, by simp [h1, h2, Bind.bind, Except.bind], turnField_error_status h2⟩
    | ok f2 =>
      cases h3 : ttsField a.ttsVoice with
      | error e => exact ⟨e, by simp [h1, h2, h3, Bind.bind, Except.bind], ttsField_error_status h3⟩
      | ok f8 =>
        refine ⟨HttpError.mk 400
          "Invalid endpointing delays (min_endpointing_delay > max_endpointing_delay)", ?_, rfl⟩
        simp [h1, h2, h3, Bind.bind, Except.bind, hviol]

/-- Witness: a request carrying min_endpointing_delay 2 and
max_endpointing_delay 1 is rejected with status 400. -/
theorem endpointing_validation_rejects_witness :
    ∃ e, buildVoiceSettings
        { llmModel := none, turnDetection := none, allowInterruptions := none,
          minEndpointingDelay := some 2, maxEndpointingDelay := some 1,
          minInterruptionDuration := none, minInterruptionWords := none,
          ttsVoice := none } = .error e ∧ e.status = 400 :=
  endpointing_validation_rejects _ 2 1 rfl rfl (by norm_num)

/-! ## C7: live-session seeding swaps inverted endpointing delays -/

/-- C7: when both endpointing delays coerce from room metadata, lie within
the accepted range, and min exceeds max, the seeded session keyword
arguments carry them swapped, so the applied values satisfy min and max in
order. -/
theorem endpointing_seed_swap (pyFloat : String → Option ℚ) (pyInt : String → Option Int)
    (settings : List (String × JVal)) (a b : ℚ)
    (hmin : coerceFloat pyFloat (settingsGet settings "min_endpointing_delay") = some a)
    (hmax : coerceFloat pyFloat (settingsGet settings "max_endpointing_delay") = some b)
    (ha : 0 ≤ a ∧ a ≤ 10) (hb : 0 ≤ b ∧ b ≤ 10) (hba : b < a) :
    (seedSessionKwargs pyFloat pyInt settings).minEndpointingDelay = some b ∧
      (seedSessionKwargs pyFloat pyInt settings).maxEndpointingDelay = some a ∧
      b ≤ a := by
  unfold seedSessionKwargs
  rw [hmin, hmax]
  simp [ha, hb, hba, le_of_lt hba]

/-- Witness: metadata with min_endpointing_delay 5 and max_endpointing_delay
2 seeds the session with the two values swapped. -/
theorem endpointing_seed_swap_witness :
    (seedSessionKwargs (fun _ => none) (fun _ => none)
        [("min_endpointing_delay", JVal.num 5), ("max_endpointing_delay", JVal.num 2)]).minEndpointingDelay = some 2 ∧
      (seedSessionKwargs (fun _ => none) (fun _ => none)
        [("min_endpointing_delay", JVal.num 5), ("max_endpointing_delay", JVal.num 2)]).maxEndpointingDelay = some 5 ∧
      (2 : ℚ) ≤ 5 :=
  endpointing_seed_swap _ _ _ 5 2 rfl rfl (by norm_num) (by norm_num) (by norm_num)

/-! ## C8: occupied-room guard on the apply path -/

/-- C8: when an existing room holds a participant who is neither an agent
nor the requesting caller, apply refuses a restart with 409 unless force is
set, and with force set the restart (delete plus create) proceeds. -/
theorem apply_occupied_guard (an : String) (r : RoomInfo) (m uid : String)
    (p : RoomParticipant) (hp : p ∈ r.participants)
    (h1 : pyStartswith p.identity "agent-" = false)
    (h2 : p.identity ≠ "owui:" ++ uid) :
    ((applyReconcile an (some r) m uid false).status = 409 ∧
      (applyReconcile an (some r) m uid false).deletedDispatchIds = [] ∧
      (applyReconcile an (some r) m uid false).createdDispatch = false) ∧
    ((applyReconcile an (some r) m uid true).status = 200 ∧
      (applyReconcile an (some r) m uid true).deletedDispatchIds =
        (r.dispatches.filter (fun d => d.agentName == an)).map (·.id) ∧
      (applyReconcile an (some r) m uid true).createdDispatch = true) := by
  have hmem : p ∈ r.participants.filter
      (fun q => !(pyStartswith q.identity "agent-") && !(q.identity == "owui:" ++ uid)) := by
    refine List.mem_filter.2 ⟨hp, ?_⟩
    simp [h1, h2]
  have hne : (r.participants.filter
      (fun q => !(pyStartswith q.identity "agent-") && !(q.identity == "owui:" ++ uid))).isEmpty = false := by
    cases hq : (r.participants.filter
      (fun q => !(pyStartswith q.identity "agent-") && !(q.identity == "owui:" ++ uid))) with
    | nil => rw [hq] at hmem; cases hmem
    | cons c cs => rfl
  constructor
  · unfold applyReconcile
    simp [hne]
  · unfold applyReconcile
    simp

/-- Witness: a room occupied by participant "guest" refuses the restart for
caller "u" with 409 unless forced, and restarts when forced. -/
theorem apply_occupied_guard_witness :
    ((applyReconcile "owui-voice" (some roomGuest) "m2" "u" false).status = 409 ∧
      (applyReconcile "owui-voice" (some roomGuest) "m2" "u" false).deletedDispatchIds = [] ∧
      (applyReconcile "owui-voice" (some roomGuest) "m2" "u" false).createdDispatch = false) ∧
    ((applyReconcile "owui-voice" (some roomGuest) "m2" "u" true).status = 200 ∧
      (applyReconcile "owui-voice" (some roomGuest) "m2" "u" true).deletedDispatchIds =
        (roomGuest.dispatches.filter (fun d => d.agentName == "owui-voice")).map (·.id) ∧
      (applyReconcile "owui-voice" (some roomGuest) "m2" "u" true).createdDispatch = true) :=
  apply_occupied_guard "owui-voice" roomGuest "m2" "u" { identity := "guest" }
    (by simp [roomGuest]) (by decide) (by decide)

/-! ## C10: metadata parsing is total and defaults to the empty dict -/

/-- C10: parsing room metadata always returns a settings dict; it is
non-empty only when the parser produced a JSON object whose owui_voice field
is itself an object, and every malformed input class (absent metadata,
blank string, parse failure, non-object document, missing or non-object
owui_voice) yields the empty dict. -/
theorem parse_metadata_total (parse : String → Option JVal) (md : Option String) :
    (parseRoomVoiceSettings parse md = [] ∨
      ∃ fields s, parse (pyStrip (md.getD "")) = some (.obj fields) ∧
        fields.lookup "owui_voice" = some (.obj s) ∧ parseRoomVoiceSettings parse md = s) ∧
    (md = none → parseRoomVoiceSettings parse md = []) ∧
    ((pyStrip (md.getD "")).data.isEmpty = true → parseRoomVoiceSettings parse md = []) ∧
    (parse (pyStrip (md.getD "")) = none → parseRoomVoiceSettings parse md = []) := by
  refine ⟨?_, ?_, ?_, ?_⟩
  · unfold parseRoomVoiceSettings
    by_cases h0 : (pyStrip (md.getD "")).data.isEmpty
    · left; simp [h0]
    · simp only [h0, Bool.false_eq_true, if_false]
      rcases hp : parse (pyStrip (md.getD "")) with _ | v
      · left; rfl
      · cases v with
        | obj fields =>
          rcases hl : fields.lookup "owui_voice" with _ | w
          · left; simp [hl]
          · cases w with
            | obj s => right; exact ⟨fields, s, rfl, hl, by simp [hl]⟩
            | null => left; simp [hl]
            | bool b => left; simp [hl]
            | num q => left; simp [hl]
            | str s => left; simp [hl]
            | arr xs => left; simp [hl]
        | null => left; rfl
        | bool b => left; rfl
        | num q => left; rfl
        | str s => left; rfl
        | arr xs => left; rfl
  · intro h; subst h
    rfl
  · intro h
    unfold parseRoomVoiceSettings
    simp [h]
  · intro h
    unfold parseRoomVoiceSettings
    by_cases h0 : (pyStrip (md.getD "")).data.isEmpty
    · simp [h0]
    · simp [h0, h]

/-- Witness: absent metadata, a blank string, and a parse failure all yield
the empty settings dict. -/
theorem parse_metadata_total_witness :
    parseRoomVoiceSettings (fun _ => none) none = [] ∧
    parseRoomVoiceSettings (fun _ => none) (some "   ") = [] ∧
    parseRoomVoiceSettings (fun _ => some (JVal.num 1)) (some "1") = [] := by
  refine ⟨(parse_metadata_total (fun _ => none) none).2.1 rfl,
    (parse_metadata_total (fun _ => none) (some "   ")).2.2.1 (by decide),
    ?_⟩
  rcases (parse_metadata_total (fun _ => some (JVal.num 1)) (some "1")).1 with h | ⟨fields, s, hp, _, _⟩
  · exact h
  · cases hp

/-! ## C3: staleness and restart decisions on the two reconciliation paths -/

/-- Counterexample to C3 as stated: room0 is not stale for metadata "m" (its
single agent dispatch job already observed "m"), yet the explicit apply path
still deletes the dispatch and creates a fresh one. -/
theorem reconcile_no_restart_counterexample :
    dispatchStale "m" (agentDispatchesOf "owui-voice" room0) = false ∧
    agentDispatchesOf "owui-voice" room0 ≠ [] ∧
    (applyReconcile "owui-voice" (some room0) "m" "u" false).status = 200 ∧
    (applyReconcile "owui-voice" (some room0) "m" "u" false).deletedDispatchIds = ["d1"] ∧
    (applyReconcile "owui-voice" (some room0) "m" "u" false).createdDispatch = true := by
  decide

/-- C3 amended: on the passive token-mint path, a non-stale room (an agent
dispatch exists and every dispatch job observed exactly the metadata just
written) causes no dispatch restart; the explicit apply path instead
restarts unconditionally whenever it proceeds (status 200), with no
staleness comparison. -/
theorem reconcile_no_restart_amended :
    (∀ an r m, agentDispatchesOf an r ≠ [] →
      (∀ d ∈ agentDispatchesOf an r, ∀ j ∈ d.jobs, j.roomMetadata = m) →
      tokenReconcile an (some r) m =
        { metadataUpdated := true, deletedDispatchIds := [], createdDispatch := false,
          skippedOccupied := false }) ∧
    (∀ an r m uid force,
      (applyReconcile an (some r) m uid force).status = 200 →
      (applyReconcile an (some r) m uid force).createdDispatch = true ∧
      (applyReconcile an (some r) m uid force).deletedDispatchIds =
        (r.dispatches.filter (fun d => d.agentName == an)).map (·.id)) := by
  constructor
  · intro an r m h1 h2
    have hstale : dispatchStale m (agentDispatchesOf an r) = false := by
      unfold dispatchStale
      rw [Bool.or_eq_false_iff]
      constructor
      · cases hq : agentDispatchesOf an r with
        | nil => exact absurd hq h1
        | cons c cs => rfl
      · rw [List.any_eq_false]
        intro d hd
        rw [Bool.not_eq_true, List.any_eq_false]
        intro j hj
        simp [h2 d hd j hj]
    unfold tokenReconcile
    simp [hstale]
  · intro an r m uid force h
    simp only [applyReconcile] at h ⊢
    by_cases hc : ((!(r.participants.filter
        (fun p => !(pyStartswith p.identity "agent-") && !(p.identity == "owui:" ++ uid))).isEmpty
        && !force) = true)
    · rw [if_pos hc] at h
      simp at h
    · rw [if_neg hc] at h ⊢
      exact ⟨rfl, rfl⟩

/-- Witness for the amended C3: on room0 the token path performs no restart,
and a forced apply against the occupied roomGuest (status 200) does restart. -/
theorem reconcile_no_restart_amended_witness :
    tokenReconcile "owui-voice" (some room0) "m" =
      { metadataUpdated := true, deletedDispatchIds := [], createdDispatch := false,
        skippedOccupied := false } ∧
    ((applyReconcile "owui-voice" (some roomGuest) "m2" "u" true).createdDispatch = true ∧
      (applyReconcile "owui-voice" (some roomGuest) "m2" "u" true).deletedDispatchIds =
        (roomGuest.dispatches.filter (fun d => d.agentName == "owui-voice")).map (·.id)) :=
  ⟨reconcile_no_restart_amended.1 "owui-voice" room0 "m" (by decide) (by decide),
    reconcile_no_restart_amended.2 "owui-voice" roomGuest "m2" "u" true (by decide)⟩

/-! ## C4: sender-identity gating on the control topic -/

/-- Counterexample to C4 as stated: a packet whose sender identity is the
empty string does not carry the "owui:" namespace prefix, yet a control
operation is still dispatched for it (the guard only fires for non-empty
identities). -/
theorem control_identity_gate_counterexample :
    onDataReceived parseForC4 "owui.voice.control" pktAnon = .dispatchClear none ∧
    pyStartswith pktAnon.senderIdentity "owui:" = false := by
  constructor
  · rfl
  · decide

/-- C4 amended: a control operation is dispatched only when the sender
identity is empty or carries the "owui:" namespace prefix; and every
control-topic packet with a non-blank payload whose sender identity is
non-empty and lacks the prefix is logged and dropped with no dispatch. -/
theorem control_identity_gate_amended :
    (∀ (parse : String → Option JVal) (ct : String) (pkt : DataPacket)
      (t mo : String) (rid : Option String),
      (onDataReceived parse ct pkt = .dispatchSet t mo rid ∨
        onDataReceived parse ct pkt = .dispatchClear rid) →
      pkt.senderIdentity = "" ∨ pyStartswith pkt.senderIdentity "owui:" = true) ∧
    (∀ (parse : String → Option JVal) (ct : String) (pkt : DataPacket),
      ct.data.isEmpty = false → pkt.topic = ct →
      (pyStrip pkt.payloadText).data.isEmpty = false →
      pkt.senderIdentity.data.isEmpty = false →
      pyStartswith pkt.senderIdentity "owui:" = false →
      onDataReceived parse ct pkt = .droppedIdentity) := by
  constructor
  · intro parse ct pkt t mo rid h
    by_cases hid : pkt.senderIdentity.data.isEmpty = true
    · exact Or.inl ((str_data_empty_iff _).mp hid)
    · by_cases hsw : pyStartswith pkt.senderIdentity "owui:" = true
      · exact Or.inr hsw
      · exfalso
        have hguard : (!pkt.senderIdentity.data.isEmpty &&
            !(pyStartswith pkt.senderIdentity "owui:")) = true := by
          rw [Bool.and_eq_true, Bool.not_eq_true', Bool.not_eq_true']
          exact ⟨Bool.not_eq_true _ ▸ hid, Bool.not_eq_true _ ▸ hsw⟩
        rcases h with h | h <;>
          · simp only [onDataReceived] at h
            by_cases c1 : ct.data.isEmpty = true
            · rw [if_pos c1] at h; cases h
            · rw [if_neg c1] at h
              by_cases c2 : (pyStrip pkt.payloadText).data.isEmpty = true
              · rw [if_pos c2] at h; cases h
              · rw [if_neg c2] at h
                by_cases c3 : (!(pkt.topic == ct)) = true
                · rw [if_pos c3] at h
                  by_cases c4 : pyContains "owui.voice.control" (pyStrip pkt.payloadText) = true
                  · rw [if_pos c4] at h; cases h
                  · rw [if_neg c4] at h; cases h
                · rw [if_neg c3, if_pos hguard] at h
                  cases h
  · intro parse ct pkt hct htopic hraw hid hsw
    unfold onDataReceived
    rw [hct, htopic]
    simp only [if_false, Bool.false_eq_true]
    rw [if_neg (by simp [hraw])]
    rw [if_neg (by simp)]
    rw [if_pos (by simp [hid, hsw])]

/-- Witness for the amended C4: a dispatching packet from "owui:u" satisfies
the gate conclusion, and the same payload from identity "intruder" on the
control topic is dropped. -/
theorem control_identity_gate_amended_witness :
    (pktOwner.senderIdentity = "" ∨ pyStartswith pktOwner.senderIdentity "owui:" = true) ∧
    onDataReceived parseForC4 "owui.voice.control" pktIntruder = .droppedIdentity :=
  ⟨control_identity_gate_amended.1 parseForC4 "owui.voice.control" pktOwner
      "" "" none (Or.inr (by decide)),
    control_identity_gate_amended.2 parseForC4 "owui.voice.control" pktIntruder
      (by decide) rfl (by decide) (by decide) (by decide)⟩

/-! ## C9: clear on an empty ledger -/

/-- Counterexample to C9 as stated: the context_cleared notification emitted
by clear_context carries only the request id; it does not report a zero char
count (nor mode, item id, truncation flag, or total). -/
theorem clear_empty_counterexample :
    (clearContext initLedger none).2.event = "context_cleared" ∧
    (clearContext initLedger none).2.data.lookup "chars" = none ∧
    ¬ ((clearContext initLedger none).2.data.lookup "chars" = some (JVal.num 0)) ∧
    (clearContext initLedger none).2.data.lookup "mode" = none ∧
    (clearContext initLedger none).2.data.lookup "truncated" = none ∧
    (clearContext initLedger none).2.data.lookup "total_chars" = none := by
  refine ⟨rfl, rfl, ?_, rfl, rfl, rfl⟩
  intro h
  rw [show (clearContext initLedger none).2.data.lookup "chars" = none from rfl] at h
  cases h

/-- C9 amended: clear on a ledger with no tagged items succeeds, leaves the
ledger empty, is idempotent, and emits exactly one context_cleared
notification whose data carries only the request id. -/
theorem clear_empty_amended (st : LedgerState) (rid : Option String) (h : st.items = []) :
    (clearContext st rid).1.items = [] ∧
    (clearContext st rid).2 =
      { event := "context_cleared", data := [("request_id", jOfOptStr rid)] } ∧
    (clearContext (clearContext st rid).1 rid).1 = (clearContext st rid).1 := by
  unfold clearContext
  simp [h]

/-- Witness: clear on the initial empty ledger. -/
theorem clear_empty_amended_witness :
    (clearContext initLedger none).1.items = [] ∧
    (clearContext initLedger none).2 =
      { event := "context_cleared", data := [("request_id", jOfOptStr none)] } ∧
    (clearContext (clearContext initLedger none).1 none).1 = (clearContext initLedger none).1 :=
  clear_empty_amended initLedger none rfl

/-! ## C1: the two-call set example -/

/-- Counterexample to C1 as stated: after set("hello", replace) then
set(" world", append) on an empty ledger, no tagged item has content parts
["hello", " world"] (the first part is wrapped with the fixed explanatory
prefix and the second is stripped to "world"), and the total tagged
character count is 49, not 11. -/
theorem context_example_counterexample :
    (∀ it ∈ contextItems c1Run.items,
      it.content ≠ .parts [CPart.str "hello", CPart.str " world"]) ∧
    totalContextChars c1Run.items = 49 ∧ (49 : Nat) ≠ 11 := by
  refine ⟨?_, ?_, ?_⟩ <;> decide

/-- C1 amended: the two calls yield exactly one tagged item whose content is
the two parts [wrapped "hello", "world"] (the fixed prefix on the first,
the append stripped of its leading space), the second call's notification
reports appended=true, and the total tagged character count is 49 (39
prefix characters plus 5 plus 5). -/
theorem context_example_amended :
    contextItems c1Run.items =
      [{ id := 0, itemType := "message",
         content := .parts [CPart.str (wrapContext "hello"), CPart.str "world"],
         owuiContext := true }] ∧
    (applyContext 50000 (applyContext 50000 initLedger "hello" "replace" none).1
        " world" "append" none).2.data.lookup "appended" = some (JVal.bool true) ∧
    totalContextChars c1Run.items = 49 ∧
    contextWrapText.data.length = 39 := by
  refine ⟨by decide, rfl, by decide, by decide⟩

/-! ## C2: budget invariant -/

theorem totalContextChars_cons (a : ChatItem) (l : List ChatItem) :
    totalContextChars (a :: l) = itemContextChars a + totalContextChars l := by
  simp [totalContextChars]

theorem totalContextChars_append (l1 l2 : List ChatItem) :
    totalContextChars (l1 ++ l2) = totalContextChars l1 + totalContextChars l2 := by
  simp [totalContextChars]

theorem totalContextChars_reverse (l : List ChatItem) :
    totalContextChars l.reverse = totalContextChars l := by
  simp [totalContextChars, List.map_reverse, List.sum_reverse]

theorem totalContextChars_filter_not (items : List ChatItem) :
    totalContextChars (items.filter (fun it => !(isContextItem it))) = 0 := by
  induction items with
  | nil => rfl
  | cons a as ih =>
    by_cases h : isContextItem a = true <;>
      simp [List.filter_cons, h, totalContextChars_cons, itemContextChars, ih]

theorem replaceFiltered_total_le (mode : String) (items : List ChatItem) :
    totalContextChars (replaceFiltered mode items) ≤ totalContextChars items := by
  unfold replaceFiltered
  split
  · rw [totalContextChars_filter_not]
    exact Nat.zero_le _
  · exact Nat.le_refl _

theorem truncatePair_length_le (B : Int) (current : Nat) (textS : String)
    (hB : 0 < B) (hroom : 0 < B - (current : Int)) :
    ((truncatePair B current textS).1.data.length : Int) ≤ B - (current : Int) := by
  simp only [truncatePair]
  split
  · rename_i h
    simp only [List.length_take]
    have : ((B - (current : Int)).toNat : Int) = B - (current : Int) := by omega
    push_cast
    omega
  · rename_i h
    rw [not_and_or] at h
    rcases h with h | h
    · exact absurd hB h
    · push_cast at h ⊢
      omega

theorem appendFirstCtxRev_total (t : String) (l : List ChatItem) :
    ∀ (l2 : List ChatItem) (i : Nat), appendFirstCtxRev t l = some (l2, i) →
      totalContextChars l2 = totalContextChars l + t.data.length := by
  induction l with
  | nil => intro l2 i h; cases h
  | cons a as ih =>
    intro l2 i h
    unfold appendFirstCtxRev at h
    by_cases hc : isContextItem a = true
    · rw [if_pos hc] at h
      cases hcnt : a.content with
      | parts ps =>
        rw [hcnt] at h
        cases h
        rw [totalContextChars_cons, totalContextChars_cons]
        have hiceq : isContextItem { a with content := MsgContent.parts (ps ++ [CPart.str t]) } =
            isContextItem a := rfl
        simp [itemContextChars, hiceq, hc, hcnt, contentChars, partChars]
        omega
      | text s =>
        rw [hcnt] at h
        cases h
    · rw [if_neg hc] at h
      cases hrec : appendFirstCtxRev t as with
      | none => rw [hrec] at h; cases h
      | some pr =>
        obtain ⟨l2r, ir⟩ := pr
        rw [hrec] at h
        cases h
        rw [totalContextChars_cons, totalContextChars_cons, ih _ _ hrec]
        omega

theorem appendLastCtx_total (t : String) (items l2 : List ChatItem) (i : Nat)
    (h : appendLastCtx t items = some (l2, i)) :
    totalContextChars l2 = totalContextChars items + t.data.length := by
  unfold appendLastCtx at h
  cases hrec : appendFirstCtxRev t items.reverse with
  | none => rw [hrec] at h; cases h
  | some pr =>
    obtain ⟨l2r, ir⟩ := pr
    rw [hrec] at h
    cases h
    have hr := appendFirstCtxRev_total t items.reverse _ _ hrec
    rw [totalContextChars_reverse] at hr
    rw [totalContextChars_reverse]
    exact hr

theorem wrapContext_contentChars (s : String) :
    contentChars (.parts [CPart.str (wrapContext s)]) =
      contextWrapText.data.length + s.data.length := by
  simp [contentChars, partChars, wrapContext]

theorem itemContextChars_fresh (n : Nat) (s : String) :
    itemContextChars
      { id := n, itemType := "message",
        content := .parts [CPart.str (wrapContext s)], owuiContext := true } =
      contextWrapText.data.length + s.data.length := by
  rw [itemContextChars, if_pos (by rfl), wrapContext_contentChars]

theorem applyContext_budget (B : Int) (hB : 0 < B) (st : LedgerState) (t m : String)
    (rid : Option String)
    (hinv : (totalContextChars st.items : Int) ≤ B + (contextWrapText.data.length : Int)) :
    (totalContextChars (applyContext B st t m rid).1.items : Int) ≤
      B + (contextWrapText.data.length : Int) := by
  simp only [applyContext]
  split
  · dsimp only
    have h1 := replaceFiltered_total_le (normMode m) st.items
    omega
  · split
    · dsimp only
      exact hinv
    · rename_i hne hrej
      have hroom : 0 < B - (totalContextChars (replaceFiltered (normMode m) st.items) : Int) := by
        rcases not_and_or.mp hrej with h | h
        · exact absurd hB h
        · omega
      have hlen2 := truncatePair_length_le B
        (totalContextChars (replaceFiltered (normMode m) st.items)) (pyStrip t) hB hroom
      split
      · rename_i items2 msgId heq
        dsimp only
        by_cases hm : (normMode m == "append") = true
        · rw [if_pos hm] at heq
          have htot := appendLastCtx_total _ _ _ _ heq
          omega
        · rw [if_neg hm] at heq
          cases heq
      · rename_i heq
        dsimp only
        rw [totalContextChars_append, totalContextChars_cons]
        have hnew : itemContextChars
            { id := st.nextId, itemType := "message",
              content := .parts [CPart.str (wrapContext (truncatePair B
                (totalContextChars (replaceFiltered (normMode m) st.items)) (pyStrip t)).1)],
              owuiContext := true } =
            contextWrapText.data.length + (truncatePair B
              (totalContextChars (replaceFiltered (normMode m) st.items)) (pyStrip t)).1.data.length := by
          simp [itemContextChars, isContextItem, wrapContext_contentChars]
        rw [hnew]
        have hzero : totalContextChars ([] : List ChatItem) = 0 := rfl
        omega

theorem runLedgerOps_budget (B : Int) (hB : 0 < B) (ops : List LedgerOp) (st : LedgerState)
    (hinv : (totalContextChars st.items : Int) ≤ B + (contextWrapText.data.length : Int)) :
    (totalContextChars (runLedgerOps B ops st).items : Int) ≤
      B + (contextWrapText.data.length : Int) := by
  induction ops generalizing st with
  | nil => exact hinv
  | cons op rest ih =>
    have hstep : (totalContextChars (ledgerStep B st op).items : Int) ≤
        B + (contextWrapText.data.length : Int) := by
      cases op with
      | set t m2 rid => exact applyContext_budget B hB st t m2 rid hinv
      | clear rid =>
        dsimp only [ledgerStep, clearContext]
        rw [totalContextChars_filter_not]
        omega
    have hrun := ih (ledgerStep B st op) hstep
    simpa [runLedgerOps, List.foldl_cons] using hrun

/-- C2 amended: the total tagged character count never exceeds the budget
plus the length of the fixed wrapping prefix (39 characters; the truncation
check measures the unwrapped text but the stored fresh item carries the
prefix too); and once the tagged total has reached the budget, a further
non-blank append-mode set is rejected with the ContextFull telemetry payload
reporting max_chars and chars, leaving the ledger unchanged (a replace-mode
set instead discards the tagged items first, so it is not rejected). -/
theorem context_budget_amended :
    (∀ B : Int, 0 < B → ∀ ops : List LedgerOp,
      (totalContextChars (runLedgerOps B ops initLedger).items : Int) ≤
        B + (contextWrapText.data.length : Int)) ∧
    (∀ B : Int, 0 < B → ∀ (st : LedgerState) (t : String) (rid : Option String),
      (pyStrip t).data.isEmpty = false →
      B ≤ (totalContextChars st.items : Int) →
      applyContext B st t "append" rid =
        (st, { event := "context_error",
               data := [("message", JVal.str "Context is full (max chars reached)"),
                        ("max_chars", JVal.num B),
                        ("chars", JVal.num (totalContextChars st.items)),
                        ("request_id", jOfOptStr rid)] })) := by
  constructor
  · intro B hB ops
    refine runLedgerOps_budget B hB ops initLedger ?_
    have h0 : totalContextChars initLedger.items = 0 := rfl
    omega
  · intro B hB st t rid hne hfull
    have hmode : normMode "append" = "append" := rfl
    have hfil : replaceFiltered "append" st.items = st.items := rfl
    simp only [applyContext, hmode, hfil]
    rw [if_neg (by simp [hne])]
    rw [if_pos ⟨hB, by omega⟩]

/-- Witness: the invariant at budget 1 with no operations, and the
ContextFull rejection of an append once the ledger holds 2 tagged
characters against budget 1. -/
theorem context_budget_amended_witness :
    (totalContextChars (runLedgerOps 1 [] initLedger).items : Int) ≤
      1 + (contextWrapText.data.length : Int) ∧
    applyContext 1 fullSt "hi" "append" none =
      (fullSt, { event := "context_error",
                 data := [("message", JVal.str "Context is full (max chars reached)"),
                          ("max_chars", JVal.num ((1 : Int) : ℚ)),
                          ("chars", JVal.num (totalContextChars fullSt.items)),
                          ("request_id", jOfOptStr none)] }) :=
  ⟨context_budget_amended.1 1 (by norm_num) [],
    context_budget_amended.2 1 (by norm_num) fullSt "hi" none (by decide) (by decide)⟩

/-- Full evaluation of a replace-mode set of already-stripped non-blank text
within budget: existing tagged items are dropped and one fresh wrapped item
is inserted. -/
theorem applyContext_replace_fresh (B : Int) (st : LedgerState) (t : String) (rid : Option String)
    (hB : 0 < B) (hs : pyStrip t = t) (hne : t.data.isEmpty = false)
    (hlen : (t.data.length : Int) ≤ B) :
    applyContext B st t "replace" rid =
      ({ items := st.items.filter (fun it => !(isContextItem it)) ++
          [{ id := st.nextId, itemType := "message",
             content := .parts [CPart.str (wrapContext t)], owuiContext := true }],
         nextId := st.nextId + 1 },
       { event := "context_set",
         data := [("mode", JVal.str "replace"),
                  ("chars", JVal.num t.data.length),
                  ("id", JVal.num st.nextId),
                  ("appended", JVal.bool false),
                  ("truncated", JVal.bool false),
                  ("max_chars", JVal.num B),
                  ("total_chars", JVal.num (totalContextChars
                    (st.items.filter (fun it => !(isContextItem it)) ++
                      [{ id := st.nextId, itemType := "message",
                         content := .parts [CPart.str (wrapContext t)],
                         owuiContext := true }]))),
                  ("request_id", jOfOptStr rid)] }) := by
  have hmode : normMode "replace" = "replace" := rfl
  have hfil : replaceFiltered "replace" st.items =
      st.items.filter (fun it => !(isContextItem it)) := rfl
  have hcur : totalContextChars (st.items.filter (fun it => !(isContextItem it))) = 0 :=
    totalContextChars_filter_not st.items
  have htr : truncatePair B (0 : Nat) t = (t, false) := by
    simp only [truncatePair]
    rw [if_neg (by push_cast; omega)]
  have hnone : (if (("replace" : String) == "append") = true then
      appendLastCtx (truncatePair B (0 : Nat) t).1
        (st.items.filter (fun it => !(isContextItem it)))
      else none) = (none : Option (List ChatItem × Nat)) := by
    rw [if_neg (by decide)]
  simp only [applyContext, hmode, hs, hfil, hcur]
  rw [if_neg (by simp [hne])]
  rw [if_neg (by push_cast; omega)]
  rw [hnone]
  simp only [htr]

/-- Counterexample to C2 as stated: one replace-mode set of a 50000
character text against the default budget 50000 brings the tagged total to
50039 (the budget admits the text, then the stored item gains the 39
character wrapping prefix), exceeding the budget; and with the remaining
budget now below zero, a further non-empty replace-mode set is still
accepted (context_set), not rejected with ContextFull. -/
theorem context_budget_counterexample :
    totalContextChars c2St1.items = 50039 ∧
    ¬ (totalContextChars c2St1.items ≤ 50000) ∧
    (50000 : Int) - (totalContextChars c2St1.items : Int) ≤ 0 ∧
    (applyContext 50000 c2St1 "hi" "replace" none).2.event = "context_set" := by
  have hdata : bigX.data = List.replicate 50000 'x' := rfl
  have hsX : pyStrip bigX = bigX := by
    refine pyStrip_eq_self ?_
    intro c hc
    rw [hdata] at hc
    rw [List.eq_of_mem_replicate hc]
    rfl
  have h5 : (50000 : Nat) = 49999 + 1 := by norm_num
  have hdata1 : bigX.data = 'x' :: List.replicate 49999 'x' := by
    rw [hdata, h5, List.replicate_succ]
  have hneX : bigX.data.isEmpty = false := by rw [hdata1]; rfl
  have hlen0 : bigX.data.length = 50000 := by rw [hdata, List.length_replicate]
  have hlenX : (bigX.data.length : Int) ≤ 50000 := by rw [hlen0]; norm_num
  have h1 := applyContext_replace_fresh 50000 initLedger bigX none (by norm_num) hsX hneX hlenX
  have hc2 : c2St1 = (applyContext 50000 initLedger bigX "replace" none).1 := by
    rw [c2St1, runLedgerOps, List.foldl_cons, List.foldl_nil, ledgerStep]
  have h39 : contextWrapText.data.length = 39 := by decide
  have htot : totalContextChars c2St1.items = 50039 := by
    rw [hc2, h1]
    dsimp only
    rw [show (List.filter (fun it => !(isContextItem it)) initLedger.items) = [] from rfl]
    rw [List.nil_append, totalContextChars_cons, itemContextChars_fresh, h39, hlen0]
    rfl
  have h2 := applyContext_replace_fresh 50000 c2St1 "hi" none (by norm_num) (by decide)
    (by decide) (by decide)
  exact ⟨htot, by omega, by omega, by rw [h2]⟩

/-! ## C5: metadata round-trip -/

theorem insertField_ne_nil (p : String × JVal) (l : List (String × JVal)) :
    insertField p l ≠ [] := by
  cases l with
  | nil => simp [insertField]
  | cons q rest =>
    unfold insertField
    split <;> simp

theorem sortFields_eq_nil_iff (l : List (String × JVal)) : sortFields l = [] ↔ l = [] := by
  cases l with
  | nil => simp [sortFields]
  | cons p rest => simp [sortFields, insertField_ne_nil]

theorem pyStripList_sandwich (a b : Char) (l : List Char)
    (ha : isPySpace a = false) (hb : isPySpace b = false) :
    pyStripList (a :: (l ++ [b])) = a :: (l ++ [b]) := by
  unfold pyStripList
  rw [List.dropWhile_cons, ha]
  simp only [Bool.false_eq_true, if_false]
  rw [List.reverse_cons, List.reverse_append, List.reverse_singleton, List.singleton_append,
    List.cons_append, List.dropWhile_cons, hb]
  simp only [Bool.false_eq_true, if_false]
  rw [List.reverse_cons, List.reverse_append, List.reverse_singleton, List.reverse_reverse,
    List.singleton_append, List.cons_append]

theorem pyStrip_eq_of_list {s : String} (h : pyStripList s.data = s.data) : pyStrip s = s := by
  cases s with
  | mk l => exact congrArg String.mk h

theorem encodeMeta_shape (vs : List (String × JVal)) (h : vs ≠ []) :
    (encodeMeta vs).data =
      Char.ofNat 123 ::
        (dumpFields [("owui_voice", JVal.obj (sortFields vs))] ++ [Char.ofNat 125]) := by
  unfold encodeMeta
  rw [if_neg (by simpa [List.isEmpty_iff] using h)]
  show dumpJVal (.obj [("owui_voice", JVal.obj (sortFields vs))]) = _
  rw [dumpJVal, List.cons_append]

theorem pyStrip_encodeMeta (vs : List (String × JVal)) (h : vs ≠ []) :
    pyStrip (encodeMeta vs) = encodeMeta vs := by
  refine pyStrip_eq_of_list ?_
  rw [encodeMeta_shape vs h]
  exact pyStripList_sandwich _ _ _ (by decide) (by decide)

/-- C5: with the stdlib loads/dumps contract as hypothesis (parsing the
encoded metadata back yields the owui_voice wrapper around a dict equal to
the settings up to key order), re-encoding the decoded settings is
byte-identical to the original encoding; the empty settings dict encodes to
the empty string and round-trips through it. -/
theorem settings_roundtrip (s s2 : List (String × JVal)) (parse : String → Option JVal)
    (hv : ValidVoiceSettings s)
    (hp : s ≠ [] → parse (encodeMeta s) = some (.obj [("owui_voice", .obj s2)]) ∧
      sortFields s2 = sortFields s) :
    encodeMeta (parseRoomVoiceSettings parse (some (encodeMeta s))) = encodeMeta s := by
  by_cases hnil : s = []
  · subst hnil
    rfl
  · obtain ⟨hparse, hsort⟩ := hp hnil
    have hstrip := pyStrip_encodeMeta s hnil
    have hshape := encodeMeta_shape s hnil
    have hs2 : s2 ≠ [] := by
      intro h0
      rw [h0] at hsort
      have : s = [] := (sortFields_eq_nil_iff s).mp (by simpa [sortFields] using hsort.symm)
      exact hnil this
    unfold parseRoomVoiceSettings
    simp only [Option.getD]
    rw [hstrip]
    rw [if_neg (by rw [hshape]; simp)]
    rw [hparse]
    show encodeMeta s2 = encodeMeta s
    unfold encodeMeta
    rw [if_neg (by simpa [List.isEmpty_iff] using hs2),
      if_neg (by simpa [List.isEmpty_iff] using hnil), hsort]

/-- Witness: the round-trip at the one-field settings dict built from
turn_detection "ml", with a parser satisfying the loads/dumps contract at
exactly that string. -/
theorem settings_roundtrip_witness :
    encodeMeta (parseRoomVoiceSettings parseForC5 (some (encodeMeta c5s))) = encodeMeta c5s :=
  settings_roundtrip c5s c5s parseForC5 ⟨by decide, by decide⟩
    (fun _ => ⟨by simp [parseForC5], rfl⟩)
